import Mathlib

/-
Verification of the voice interaction pipeline of the `old-people` repository.

The definitions below are a shallow embedding of the JavaScript sources:
  * `PopupController` and its operations embed the class `PopupController`
    of `src/extension/src/popup/popup.js` (state machine, conversation
    history, duplicate-processing guards).
  * `WidgetController` embeds the class `WidgetController` of the widget
    controller source (same `setState` self-transition guard).
  * `SpeechService`, `transcribeAudio`, `processAudio` and `updateState`
    embed the two `SpeechService` variants of the speech-service sources.
  * The `Vad*` definitions embed the `detectSilence` / `checkVolume` /
    `stopRecording` silence-detection logic of `SpeechService`.

DOM manipulation (bubble layout, waveform drawing, button monitoring) is
not part of the model: it reads and writes only the page, never the
conversation history or the machine state.  Timers are made explicit:
`setTimeout` deadlines are stored as absolute times and a due timer is
fired by `VadState.fireDue`.
-/

/-- The UI lifecycle states of the interaction state machine
(`STATES` in popup.js): idle, listening, thinking, responding. -/
inductive UIState where
  | idle
  | listening
  | thinking
  | responding
  deriving DecidableEq, Repr

/-- Sender of a conversation turn: the strings 'user' and 'bot' in the source. -/
inductive Sender where
  | user
  | bot
  deriving DecidableEq, Repr

/-- One entry of `conversationHistory`, as built by
`PopupController.addChatMessage`: `{ text, sender, timestamp: Date.now(), element: null }`.
The `element` field holds a reference to the rendered DOM bubble (modelled
as a numeric handle); it is `none` until `_addBubbleToPosition` fills it in. -/
structure Turn where
  text : String
  sender : Sender
  timestamp : Nat
  element : Option Nat
  deriving DecidableEq, Repr

/-- The popup controller state: `currentState`, `conversationHistory`,
the `_isProcessing` re-entrancy flag, and a trace of the (from, to)
transitions actually performed by `setState` (each recorded transition is
one execution of `updateUI` + `handleStateChange`). -/
structure PopupController where
  currentState : UIState
  conversationHistory : List Turn
  isProcessing : Bool
  trace : List (UIState × UIState)
  deriving DecidableEq, Repr

/-- The controller as built by the constructor: state IDLE, empty history,
`_isProcessing` unset (falsy), no transitions performed yet. -/
def initialPopupController : PopupController :=
  { currentState := UIState.idle, conversationHistory := [], isProcessing := false, trace := [] }

/-- popup.js `setState(newState)`: `if (this.currentState === newState) return;`
then store the new state and run `updateUI()` and `handleStateChange(old, new)`
(recorded in `trace`).  `handleStateChange` in popup.js touches no model
state (its switch bodies are empty). -/
def PopupController.setState (c : PopupController) (newState : UIState) : PopupController :=
  if c.currentState = newState then c
  else { c with currentState := newState, trace := c.trace ++ [(c.currentState, newState)] }

/-- popup.js `addChatMessage(text, sender)`: pushes
`{ text, sender, timestamp: Date.now(), element: null }` onto
`conversationHistory` synchronously.  The DOM bubble is created later by
`_addBubbleToPosition`; only the push is modelled here (`now` stands for
`Date.now()`). -/
def PopupController.addChatMessage (c : PopupController) (text : String) (sender : Sender)
    (now : Nat) : PopupController :=
  { c with conversationHistory :=
      c.conversationHistory ++ [{ text := text, sender := sender, timestamp := now, element := none }] }

/-- popup.js `_addBubbleToPosition`: the deferred step that renders the
bubble and then executes `messageEntry.element = messageBubble`, mutating
the `element` field of the history entry created by `addChatMessage`
(identified here by its index; `addChatMessage` always passes the entry,
so the fallback push branch for a missing entry is unreachable). -/
def PopupController.addBubbleToPosition (c : PopupController) (idx : Nat) (bubble : Nat) :
    PopupController :=
  match c.conversationHistory.get? idx with
  | some turn =>
      { c with conversationHistory :=
          c.conversationHistory.set idx { turn with element := some bubble } }
  | none => c

/-- The backward scan of `processUserMessage`: the index of the most recent
turn with `sender === 'user'`, or `none`.  (The source then recovers the
same index with `indexOf` on the found object.) -/
def lastUserIdx : List Turn → Option Nat
  | [] => none
  | t :: ts =>
    match lastUserIdx ts with
    | some i => some (i + 1)
    | none => if t.sender = Sender.user then some 0 else none

/-- The duplicate check of `processUserMessage`:
`conversationHistory.slice(i + 1).some(msg => msg.sender === 'bot')`. -/
def hasBotAfter (h : List Turn) (i : Nat) : Bool :=
  (h.drop (i + 1)).any (fun t => decide (t.sender = Sender.bot))

/-- popup.js `getAgentResponse(userMessage)`: the mock agent reply. -/
def getAgentResponse (userMessage : String) : String :=
  "I understand you said: \"" ++ userMessage ++
    "\". This is a placeholder response. Integrate your agent API here."

/-- popup.js `processUserMessage()`: the "produce response" step.
Guarded by `_isProcessing`; finds the last user turn; if a bot turn
already follows it, goes to IDLE; otherwise appends one bot turn and goes
to RESPONDING.  Every completing invocation clears `_isProcessing` in its
`finally` block.  The `setTimeout(() => setState(IDLE), 2000)` scheduled
after RESPONDING is a separate deferred transition, not part of this
step's immediate effect. -/
def PopupController.processUserMessage (c : PopupController) (now : Nat) : PopupController :=
  if c.isProcessing then c
  else
    match lastUserIdx c.conversationHistory with
    | none => { c.setState UIState.idle with isProcessing := false }
    | some i =>
      if hasBotAfter c.conversationHistory i then
        { c.setState UIState.idle with isProcessing := false }
      else
        let resp := getAgentResponse (((c.conversationHistory.get? i).map Turn.text).getD "")
        let c1 := c.addChatMessage resp Sender.bot now
        { c1.setState UIState.responding with isProcessing := false }

/-- A sequence of transition requests delivered to `setState`, in order. -/
def PopupController.runRequests (c : PopupController) (reqs : List UIState) : PopupController :=
  reqs.foldl PopupController.setState c

/-- The widget controller state (widget-controller source): same lifecycle
state, a conversation history, and the trace of performed transitions
(whose `handleStateChange` entry actions, e.g. `processUserMessage` on
entering THINKING, run once per recorded transition). -/
structure WidgetController where
  currentState : UIState
  conversationHistory : List Turn
  trace : List (UIState × UIState)
  deriving DecidableEq, Repr

/-- Widget `setState(newState)`: `if (this.currentState === newState) return;`
then store and run `updateUI()` + `handleStateChange(old, new)`. -/
def WidgetController.setState (w : WidgetController) (newState : UIState) : WidgetController :=
  if w.currentState = newState then w
  else { w with currentState := newState, trace := w.trace ++ [(w.currentState, newState)] }

/-- Helper: `setState` always leaves the machine in the requested state. -/
theorem setState_currentState (c : PopupController) (s : UIState) :
    (c.setState s).currentState = s := by
  by_cases h : c.currentState = s <;> simp [PopupController.setState, h]

/-- Helper: `setState` never touches the conversation history. -/
theorem setState_history (c : PopupController) (s : UIState) :
    (c.setState s).conversationHistory = c.conversationHistory := by
  by_cases h : c.currentState = s <;> simp [PopupController.setState, h]

/-- C3: requesting a transition to the currently-active state is a no-op
for both controllers: the state is unchanged and no entry/exit side effect
(recorded transition) runs a second time. -/
theorem c3_self_transition_noop (c : PopupController) (w : WidgetController) :
    c.setState c.currentState = c ∧ w.setState w.currentState = w := by
  constructor <;> simp [PopupController.setState, WidgetController.setState]

/-- Concrete controller whose last user turn is already answered by a bot turn. -/
def answeredCtrl : PopupController :=
  { currentState := UIState.thinking,
    conversationHistory :=
      [{ text := "hi", sender := Sender.user, timestamp := 0, element := none },
       { text := "reply", sender := Sender.bot, timestamp := 1, element := none }],
    isProcessing := false, trace := [] }

/-- Concrete controller whose last user turn has no later bot turn. -/
def unansweredCtrl : PopupController :=
  { currentState := UIState.thinking,
    conversationHistory :=
      [{ text := "hi", sender := Sender.user, timestamp := 0, element := none }],
    isProcessing := false, trace := [] }

/-- C1: the produce-response step.  If the most recent user turn already has
a later bot turn, one invocation appends nothing and lands in IDLE; if it
has none, one invocation appends exactly one bot turn and lands in
RESPONDING. -/
theorem c1_produce_response_step
    (c₁ c₂ : PopupController) (now i₁ i₂ : Nat)
    (hp₁ : c₁.isProcessing = false) (hp₂ : c₂.isProcessing = false)
    (hi₁ : lastUserIdx c₁.conversationHistory = some i₁)
    (hb₁ : hasBotAfter c₁.conversationHistory i₁ = true)
    (hi₂ : lastUserIdx c₂.conversationHistory = some i₂)
    (hb₂ : hasBotAfter c₂.conversationHistory i₂ = false) :
    ((c₁.processUserMessage now).conversationHistory = c₁.conversationHistory ∧
      (c₁.processUserMessage now).currentState = UIState.idle) ∧
    ((c₂.processUserMessage now).conversationHistory =
        c₂.conversationHistory ++
          [{ text := getAgentResponse (((c₂.conversationHistory.get? i₂).map Turn.text).getD ""),
             sender := Sender.bot, timestamp := now, element := none }] ∧
      (c₂.processUserMessage now).currentState = UIState.responding) := by
  have e₁ : c₁.processUserMessage now = { c₁.setState UIState.idle with isProcessing := false } := by
    simp [PopupController.processUserMessage, hp₁, hi₁, hb₁]
  have e₂ : c₂.processUserMessage now =
      { (c₂.addChatMessage
            (getAgentResponse (((c₂.conversationHistory.get? i₂).map Turn.text).getD ""))
            Sender.bot now).setState UIState.responding with isProcessing := false } := by
    simp [PopupController.processUserMessage, hp₂, hi₂, hb₂]
  refine ⟨⟨?_, ?_⟩, ?_, ?_⟩
  · rw [e₁]; simpa using setState_history c₁ UIState.idle
  · rw [e₁]; simpa using setState_currentState c₁ UIState.idle
  · rw [e₂]
    simpa [PopupController.addChatMessage] using
      setState_history (c₂.addChatMessage
        (getAgentResponse (((c₂.conversationHistory.get? i₂).map Turn.text).getD ""))
        Sender.bot now) UIState.responding
  · rw [e₂]
    simpa using setState_currentState (c₂.addChatMessage
      (getAgentResponse (((c₂.conversationHistory.get? i₂).map Turn.text).getD ""))
      Sender.bot now) UIState.responding

/-- C1 witness: both cases evaluated on concrete conversation logs. -/
theorem c1_produce_response_step_witness :
    answeredCtrl.isProcessing = false ∧
    unansweredCtrl.isProcessing = false ∧
    lastUserIdx answeredCtrl.conversationHistory = some 0 ∧
    hasBotAfter answeredCtrl.conversationHistory 0 = true ∧
    lastUserIdx unansweredCtrl.conversationHistory = some 0 ∧
    hasBotAfter unansweredCtrl.conversationHistory 0 = false ∧
    (answeredCtrl.processUserMessage 5).currentState = UIState.idle ∧
    (unansweredCtrl.processUserMessage 5).currentState = UIState.responding :=
  ⟨rfl, rfl, by decide, by decide, by decide, by decide,
    ((c1_produce_response_step answeredCtrl unansweredCtrl 5 0 0 rfl rfl (by decide) (by decide)
        (by decide) (by decide)).1).2,
    ((c1_produce_response_step answeredCtrl unansweredCtrl 5 0 0 rfl rfl (by decide) (by decide)
        (by decide) (by decide)).2).2⟩

/-- C10: the `_isProcessing` mutual-exclusion guard.  An invocation that
finds the flag set returns the controller completely unchanged (nothing
appended, state untouched); an invocation that runs leaves the flag
cleared on every exit path. -/
theorem c10_processing_guard (c₁ c₂ : PopupController) (now₁ now₂ : Nat)
    (h₁ : c₁.isProcessing = true) (h₂ : c₂.isProcessing = false) :
    c₁.processUserMessage now₁ = c₁ ∧ (c₂.processUserMessage now₂).isProcessing = false := by
  constructor
  · simp [PopupController.processUserMessage, h₁]
  · cases hcase : lastUserIdx c₂.conversationHistory with
    | none => simp [PopupController.processUserMessage, h₂, hcase]
    | some i =>
      by_cases hb : hasBotAfter c₂.conversationHistory i = true
      · simp [PopupController.processUserMessage, h₂, hcase, hb]
      · simp [PopupController.processUserMessage, h₂, hcase, hb]

/-- C10 witness: guard and flag-clearing evaluated on concrete controllers. -/
theorem c10_processing_guard_witness :
    ({ initialPopupController with isProcessing := true } : PopupController).isProcessing = true ∧
    initialPopupController.isProcessing = false ∧
    ({ initialPopupController with isProcessing := true } : PopupController).processUserMessage 0 =
      { initialPopupController with isProcessing := true } ∧
    (initialPopupController.processUserMessage 0).isProcessing = false :=
  ⟨rfl, rfl,
    (c10_processing_guard { initialPopupController with isProcessing := true }
      initialPopupController 0 0 rfl rfl).1,
    (c10_processing_guard { initialPopupController with isProcessing := true }
      initialPopupController 0 0 rfl rfl).2⟩

/-- C7 counterexample: `setState` enforces no lifecycle adjacency, so the
request sequence `[RESPONDING]` delivered in IDLE moves the machine
directly from IDLE to RESPONDING in a single recorded step — the claimed
never-skips property fails on this concrete input. -/
theorem c7_counterexample :
    initialPopupController.currentState = UIState.idle ∧
    (initialPopupController.runRequests [UIState.responding]).currentState = UIState.responding ∧
    (initialPopupController.runRequests [UIState.responding]).trace =
      [(UIState.idle, UIState.responding)] := by
  refine ⟨rfl, by decide, by decide⟩

/-- C7 amended: `setState` filters only self-transitions; any request for a
state different from the current one is performed directly in one step
(recorded as a single (from, to) transition), with no intermediate state. -/
theorem c7_amended_no_adjacency (c : PopupController) (s : UIState)
    (h : c.currentState ≠ s) :
    (c.setState s).currentState = s ∧
    (c.setState s).trace = c.trace ++ [(c.currentState, s)] := by
  simp [PopupController.setState, h]

/-- C7 amended witness: a RESPONDING request delivered in IDLE. -/
theorem c7_amended_no_adjacency_witness :
    initialPopupController.currentState ≠ UIState.responding ∧
    (initialPopupController.setState UIState.responding).currentState = UIState.responding ∧
    (initialPopupController.setState UIState.responding).trace =
      initialPopupController.trace ++ [(initialPopupController.currentState, UIState.responding)] :=
  ⟨by decide,
    (c7_amended_no_adjacency initialPopupController UIState.responding (by decide)).1,
    (c7_amended_no_adjacency initialPopupController UIState.responding (by decide)).2⟩

/-- Mutable state of a `SpeechService` instance (both variants share this
shape): `isRecording`, the buffered encoded chunks (modelled by their byte
sizes, since only `Blob.size` is ever read), the pending silence-timer
handle, and whether a media stream has been acquired. -/
structure SpeechService where
  isRecording : Bool
  audioChunks : List Nat
  silenceTimer : Option Nat
  hasStream : Bool
  deriving DecidableEq, Repr

/-- The `{ success, error }` object returned by `startRecording`. -/
structure StartResult where
  success : Bool
  error : Option String
  deriving DecidableEq, Repr

/-- A state-change notification emitted through `updateState` (the
`state` strings 'recording' / 'processing' / 'completed' / 'error'). -/
inductive SpeechEvt where
  | recording
  | processing
  | completed (text : String)
  | error (msg : String)
  deriving DecidableEq, Repr

/-- First `SpeechService.startRecording` variant (the one guarded by
`if (this.isRecording) return { success: false, error: ... }`).  `micOk`
stands for whether `getUserMedia` resolves when a stream must be acquired,
and `micErr` for the thrown error's message.  Returns the new service
state, the result object, and the `updateState` events emitted. -/
def SpeechService.startRecording (s : SpeechService) (micOk : Bool) (micErr : String) :
    SpeechService × StartResult × List SpeechEvt :=
  if s.isRecording then
    (s, { success := false, error := some "Recording already in progress" }, [])
  else if s.hasStream = false && micOk = false then
    (s, { success := false, error := some micErr }, [SpeechEvt.error micErr])
  else
    ({ s with hasStream := true, audioChunks := [], isRecording := true },
      { success := true, error := none }, [SpeechEvt.recording])

/-- Second `SpeechService.startRecording` variant: it has no
`isRecording` guard — it always requests a fresh stream, resets
`audioChunks` to `[]` and starts a new recorder. -/
def SpeechService.startRecordingV2 (s : SpeechService) (micOk : Bool) (micErr : String) :
    SpeechService × StartResult × List SpeechEvt :=
  if micOk = false then
    (s, { success := false, error := some micErr }, [SpeechEvt.error micErr])
  else
    ({ s with hasStream := true, audioChunks := [], isRecording := true },
      { success := true, error := none }, [SpeechEvt.recording])

/-- C4 counterexample: with a recording already in progress
(`isRecording = true`, one buffered chunk of 500 bytes), the second
`startRecording` variant succeeds anyway and clears the open recording's
chunk buffer — refuting "the call fails without clearing or replacing the
chunk buffer". -/
theorem c4_counterexample :
    ((SpeechService.startRecordingV2
        { isRecording := true, audioChunks := [500], silenceTimer := none, hasStream := true }
        true "err").2.1.success = true) ∧
    ((SpeechService.startRecordingV2
        { isRecording := true, audioChunks := [500], silenceTimer := none, hasStream := true }
        true "err").1.audioChunks = []) ∧
    ((SpeechService.startRecordingV2
        { isRecording := true, audioChunks := [500], silenceTimer := none, hasStream := true }
        true "err").1.isRecording = true) := by
  refine ⟨rfl, rfl, rfl⟩

/-- C4 amended: in the guarded (first) `startRecording` variant, a call
made while a recording is in progress fails with "Recording already in
progress", emits no events, and leaves the whole service state — in
particular the chunk buffer — unchanged. -/
theorem c4_amended_guarded_variant (s : SpeechService) (micOk : Bool) (micErr : String)
    (h : s.isRecording = true) :
    s.startRecording micOk micErr =
      (s, { success := false, error := some "Recording already in progress" }, []) := by
  simp [SpeechService.startRecording, h]

/-- C4 amended witness: the guard evaluated on a concrete open recording. -/
theorem c4_amended_guarded_variant_witness :
    ({ isRecording := true, audioChunks := [500], silenceTimer := none, hasStream := true } :
        SpeechService).isRecording = true ∧
    ({ isRecording := true, audioChunks := [500], silenceTimer := none, hasStream := true } :
        SpeechService).startRecording true "err" =
      ({ isRecording := true, audioChunks := [500], silenceTimer := none, hasStream := true },
        { success := false, error := some "Recording already in progress" }, []) :=
  ⟨rfl,
    c4_amended_guarded_variant
      { isRecording := true, audioChunks := [500], silenceTimer := none, hasStream := true }
      true "err" rfl⟩

/-- The `{status, text, message}` JSON body of the transcription endpoint,
together with whether the HTTP response was 2xx (`response.ok`). -/
structure ServerResponse where
  httpOk : Bool
  status : String
  text : String
  message : String
  deriving DecidableEq, Repr

/-- The `error.message || 'Transcription failed'` fallback (an absent or
empty message falls back to the default). -/
def errMsgOr (m : String) : String :=
  if m = "" then "Transcription failed" else m

/-- `SpeechService.transcribeAudio` (first variant): POSTs the audio file;
throws `error.message || 'Transcription failed'` when `!response.ok`;
throws `result.message || 'Transcription failed'` when
`result.status !== 'success'`; otherwise returns `{ text: result.text }`. -/
def transcribeAudio (resp : ServerResponse) : Except String String :=
  if resp.httpOk = false then Except.error (errMsgOr resp.message)
  else if resp.status ≠ "success" then Except.error (errMsgOr resp.message)
  else Except.ok resp.text

/-- Observable outcome of one `processAudio` run: the `updateState` events
emitted in order, the payload handed to `onTranscriptionCallback` (if
any), whether the payload was sent to the transcription endpoint, and the
error re-thrown to the caller (if any). -/
structure ProcessAudioResult where
  events : List SpeechEvt
  transcriptionCb : Option String
  sentToServer : Bool
  thrown : Option String
  deriving DecidableEq, Repr

/-- `SpeechService.processAudio` (first variant): emits 'processing';
builds the blob (its size is the sum of the chunk sizes); throws
"Recording too short. Please speak longer." when `audioBlob.size < 1000`
without contacting the server; otherwise calls `transcribeAudio` and on
success stores the transcription, emits 'completed' and invokes
`onTranscriptionCallback`.  Every thrown error is first reported through
`updateState('error', message)` and then re-thrown. -/
def processAudio (chunks : List Nat) (resp : ServerResponse) : ProcessAudioResult :=
  if chunks.sum < 1000 then
    { events := [SpeechEvt.processing, SpeechEvt.error "Recording too short. Please speak longer."],
      transcriptionCb := none, sentToServer := false,
      thrown := some "Recording too short. Please speak longer." }
  else
    match transcribeAudio resp with
    | Except.error m =>
        { events := [SpeechEvt.processing, SpeechEvt.error m], transcriptionCb := none,
          sentToServer := true, thrown := some m }
    | Except.ok t =>
        { events := [SpeechEvt.processing, SpeechEvt.completed t], transcriptionCb := some t,
          sentToServer := true, thrown := none }

/-- The popup's `onStateChange` handler (popup.js `init`): 'recording' →
LISTENING; 'processing' → THINKING; 'completed' → nothing (handled by the
transcription callback); 'error' → `alert(message)` once, then IDLE.
Returns the updated controller and how many alerts were shown. -/
def PopupController.handleSpeechEvent (c : PopupController) (e : SpeechEvt) :
    PopupController × Nat :=
  match e with
  | SpeechEvt.recording => (c.setState UIState.listening, 0)
  | SpeechEvt.processing => (c.setState UIState.thinking, 0)
  | SpeechEvt.completed _ => (c, 0)
  | SpeechEvt.error _ => (c.setState UIState.idle, 1)

/-- Delivery of a sequence of speech-service events to the popup handler,
accumulating the number of alerts surfaced. -/
def PopupController.runSpeechEvents (c : PopupController) (evts : List SpeechEvt) :
    PopupController × Nat :=
  evts.foldl (fun acc e =>
    let r := acc.1.handleSpeechEvent e
    (r.1, acc.2 + r.2)) (c, 0)

/-- One full `processAudio` round observed from the popup: the emitted
state events are handled in order, and if the transcription callback
fired, the popup runs `addChatMessage(text, 'user')` followed by
`processUserMessage()` (the `onTranscription` wiring in popup.js). -/
def PopupController.processAudioRound (c : PopupController) (chunks : List Nat)
    (resp : ServerResponse) (now : Nat) : PopupController × Nat :=
  let r := processAudio chunks resp
  let p := c.runSpeechEvents r.events
  match r.transcriptionCb with
  | some t => ((p.1.addChatMessage t Sender.user now).processUserMessage now, p.2)
  | none => p

/-- Helper: a failing server response makes `transcribeAudio` throw the
`message || 'Transcription failed'` error. -/
theorem transcribeAudio_fail (resp : ServerResponse)
    (hfail : resp.httpOk = false ∨ resp.status ≠ "success") :
    transcribeAudio resp = Except.error (errMsgOr resp.message) := by
  unfold transcribeAudio
  rcases hfail with h | h
  · simp [h]
  · by_cases hok : resp.httpOk = false
    · simp [hok]
    · simp [hok, h]

/-- Helper: delivering 'processing' then 'error' to the popup lands in
IDLE with exactly one alert. -/
theorem runSpeechEvents_processing_error (c : PopupController) (m : String) :
    c.runSpeechEvents [SpeechEvt.processing, SpeechEvt.error m] =
      ((c.setState UIState.thinking).setState UIState.idle, 1) := by
  simp [PopupController.runSpeechEvents, PopupController.handleSpeechEvent]

/-- C5: when the transcription call fails (non-2xx or `status != "success"`)
on a recording long enough to be sent, the machine returns to IDLE, no
conversation turn is appended, and the error is surfaced (alerted) exactly
once. -/
theorem c5_transcription_failure (c : PopupController) (chunks : List Nat)
    (resp : ServerResponse) (now : Nat)
    (hsize : 1000 ≤ chunks.sum)
    (hfail : resp.httpOk = false ∨ resp.status ≠ "success") :
    (c.processAudioRound chunks resp now).1.currentState = UIState.idle ∧
    (c.processAudioRound chunks resp now).1.conversationHistory = c.conversationHistory ∧
    (c.processAudioRound chunks resp now).2 = 1 := by
  have eaudio : processAudio chunks resp =
      { events := [SpeechEvt.processing, SpeechEvt.error (errMsgOr resp.message)],
        transcriptionCb := none, sentToServer := true,
        thrown := some (errMsgOr resp.message) } := by
    simp [processAudio, Nat.not_lt.mpr hsize, transcribeAudio_fail resp hfail]
  have emain : c.processAudioRound chunks resp now =
      ((c.setState UIState.thinking).setState UIState.idle, 1) := by
    simp [PopupController.processAudioRound, eaudio, runSpeechEvents_processing_error]
  rw [emain]
  refine ⟨setState_currentState _ _, ?_, rfl⟩
  rw [setState_history, setState_history]

/-- C5 witness: the spec's concrete scenario — the server answers
`{status: "error", message: "too short"}` on a 1200-byte recording. -/
theorem c5_transcription_failure_witness :
    1000 ≤ ([1200] : List Nat).sum ∧
    (({ httpOk := true, status := "error", text := "", message := "too short" } :
        ServerResponse).httpOk = false ∨
      ({ httpOk := true, status := "error", text := "", message := "too short" } :
        ServerResponse).status ≠ "success") ∧
    (initialPopupController.processAudioRound [1200]
        { httpOk := true, status := "error", text := "", message := "too short" } 0).1.currentState
      = UIState.idle ∧
    (initialPopupController.processAudioRound [1200]
        { httpOk := true, status := "error", text := "", message := "too short" } 0).1.conversationHistory
      = initialPopupController.conversationHistory ∧
    (initialPopupController.processAudioRound [1200]
        { httpOk := true, status := "error", text := "", message := "too short" } 0).2 = 1 :=
  ⟨by decide, Or.inr (by decide),
    (c5_transcription_failure initialPopupController [1200]
      { httpOk := true, status := "error", text := "", message := "too short" } 0
      (by decide) (Or.inr (by decide))).1,
    (c5_transcription_failure initialPopupController [1200]
      { httpOk := true, status := "error", text := "", message := "too short" } 0
      (by decide) (Or.inr (by decide))).2.1,
    (c5_transcription_failure initialPopupController [1200]
      { httpOk := true, status := "error", text := "", message := "too short" } 0
      (by decide) (Or.inr (by decide))).2.2⟩

/-- C6: a finalized recording whose total payload size is below the
1000-byte minimum fails with the recording-too-short error: nothing is
sent to the transcription service, no transcription callback fires, the
error is surfaced exactly once, the machine lands in IDLE, and (there
being no retry path) the history is untouched. -/
theorem c6_empty_recording (c : PopupController) (chunks : List Nat)
    (resp : ServerResponse) (now : Nat)
    (hsize : chunks.sum < 1000) :
    (processAudio chunks resp).sentToServer = false ∧
    (processAudio chunks resp).transcriptionCb = none ∧
    (processAudio chunks resp).events =
      [SpeechEvt.processing, SpeechEvt.error "Recording too short. Please speak longer."] ∧
    (c.processAudioRound chunks resp now).1.currentState = UIState.idle ∧
    (c.processAudioRound chunks resp now).1.conversationHistory = c.conversationHistory ∧
    (c.processAudioRound chunks resp now).2 = 1 := by
  have eaudio : processAudio chunks resp =
      { events :=
          [SpeechEvt.processing, SpeechEvt.error "Recording too short. Please speak longer."],
        transcriptionCb := none, sentToServer := false,
        thrown := some "Recording too short. Please speak longer." } := by
    simp [processAudio, hsize]
  have emain : c.processAudioRound chunks resp now =
      ((c.setState UIState.thinking).setState UIState.idle, 1) := by
    simp [PopupController.processAudioRound, eaudio, runSpeechEvents_processing_error]
  rw [eaudio, emain]
  refine ⟨rfl, rfl, rfl, setState_currentState _ _, ?_, rfl⟩
  rw [setState_history, setState_history]

/-- C6 witness: a 10-byte recording with a server that would have answered
successfully — the payload is still rejected locally. -/
theorem c6_empty_recording_witness :
    ([10] : List Nat).sum < 1000 ∧
    (processAudio [10] { httpOk := true, status := "success", text := "hi", message := "" }).sentToServer
      = false ∧
    (initialPopupController.processAudioRound [10]
        { httpOk := true, status := "success", text := "hi", message := "" } 0).1.currentState
      = UIState.idle ∧
    (initialPopupController.processAudioRound [10]
        { httpOk := true, status := "success", text := "hi", message := "" } 0).2 = 1 :=
  ⟨by decide,
    (c6_empty_recording initialPopupController [10]
      { httpOk := true, status := "success", text := "hi", message := "" } 0 (by decide)).1,
    (c6_empty_recording initialPopupController [10]
      { httpOk := true, status := "success", text := "hi", message := "" } 0 (by decide)).2.2.2.1,
    (c6_empty_recording initialPopupController [10]
      { httpOk := true, status := "success", text := "hi", message := "" } 0 (by decide)).2.2.2.2.2⟩

/-- The `{ state, message, timestamp }` value built at the top of
`updateState` and handed to the callback and the broadcast. -/
structure StateData where
  state : String
  message : Option String
  timestamp : Nat
  deriving DecidableEq, Repr

/-- `chrome.runtime.sendMessage`: resolves when some context is listening,
rejects otherwise. -/
def sendRuntimeMessage (hasListener : Bool) : Except String Unit :=
  if hasListener then Except.ok ()
  else Except.error "Could not establish connection. Receiving end does not exist."

/-- The `.catch(() => {})` attached to the broadcast: any rejection is
swallowed at the send boundary. -/
def catchIgnore (e : Except String Unit) : Except String Unit :=
  match e with
  | Except.ok u => Except.ok u
  | Except.error _ => Except.ok ()

/-- What one `updateState` call does, as seen by its caller: the list of
invocations of the locally registered `onStateChangeCallback`, and the
outcome that reaches the caller after the broadcast's `.catch`. -/
structure UpdateStateResult where
  callbackInvocations : List StateData
  broadcastOutcome : Except String Unit
  deriving Repr

/-- `SpeechService.updateState(state, message)`: builds the `stateData`
value, invokes the local callback if one is registered, then broadcasts
`{type: 'SPEECH_STATE_CHANGE', payload: stateData}` with all send errors
swallowed by `.catch`. -/
def SpeechService.updateState (state : String) (message : Option String) (now : Nat)
    (hasCallback hasListener : Bool) : UpdateStateResult :=
  let sd : StateData := { state := state, message := message, timestamp := now }
  { callbackInvocations := if hasCallback then [sd] else [],
    broadcastOutcome := catchIgnore (sendRuntimeMessage hasListener) }

/-- C8: a receiving context without a listener never propagates an error to
the sender — `updateState` always completes normally (the outcome reaching
the caller is success) and still invokes the locally registered
state-change callback, whether or not the broadcast send succeeds. -/
theorem c8_broadcast_errors_swallowed (state : String) (message : Option String) (now : Nat)
    (hasCallback hasListener : Bool) :
    (SpeechService.updateState state message now hasCallback hasListener).broadcastOutcome =
      Except.ok () ∧
    (SpeechService.updateState state message now hasCallback hasListener).callbackInvocations =
      (if hasCallback then [{ state := state, message := message, timestamp := now }] else []) := by
  cases hasListener <;> cases hasCallback <;>
    simp [SpeechService.updateState, catchIgnore, sendRuntimeMessage]

/-- The fields of a turn that the spec calls the turn's identity: text,
sender and timestamp (everything except the mutable DOM-element handle). -/
def Turn.core (t : Turn) : String × Sender × Nat :=
  (t.text, t.sender, t.timestamp)

/-- Helper: overwriting only the `element` field of the entry at `idx`
leaves the text/sender/timestamp projection of the whole history intact. -/
theorem map_core_set (bubble : Nat) :
    ∀ (l : List Turn) (idx : Nat) (turn : Turn), l.get? idx = some turn →
      ((l.set idx { turn with element := some bubble }).map Turn.core) = l.map Turn.core := by
  intro l
  induction l with
  | nil => intro idx turn h; cases h
  | cons a as ih =>
    intro idx turn h
    cases idx with
    | zero =>
      simp only [List.get?] at h
      cases h
      simp [Turn.core]
    | succ n =>
      simp only [List.get?] at h
      simp [ih n turn h]

/-- C9 counterexample: the entry appended by `addChatMessage` has
`element = none`, and the later `_addBubbleToPosition` call mutates that
same appended entry's `element` field to the rendered bubble — so a field
of an appended turn is modified by a later operation, refuting the claimed
immutability on this concrete input. -/
theorem c9_counterexample :
    (((initialPopupController.addChatMessage "hello" Sender.user 5).conversationHistory.get? 0).map
        Turn.element = some none) ∧
    ((((initialPopupController.addChatMessage "hello" Sender.user 5).addBubbleToPosition 0
          7).conversationHistory.get? 0).map Turn.element = some (some 7)) := by
  refine ⟨rfl, rfl⟩

/-- C9 amended: every appended turn carries exactly the fields
{text, sender, timestamp, element} (there is no correlationId); its text,
sender and timestamp are never modified afterwards — `addChatMessage` only
appends, `_addBubbleToPosition` rewrites only the `element` field, and
`setState` never touches the history. -/
theorem c9_amended_turn_fields (c : PopupController) (text : String) (sender : Sender)
    (now idx bubble : Nat) (s : UIState) :
    (c.addChatMessage text sender now).conversationHistory =
      c.conversationHistory ++
        [{ text := text, sender := sender, timestamp := now, element := none }] ∧
    ((c.addBubbleToPosition idx bubble).conversationHistory.map Turn.core) =
      c.conversationHistory.map Turn.core ∧
    (c.setState s).conversationHistory = c.conversationHistory := by
  refine ⟨rfl, ?_, setState_history c s⟩
  unfold PopupController.addBubbleToPosition
  cases hg : c.conversationHistory.get? idx with
  | none => rfl
  | some turn => simpa using map_core_set bubble c.conversationHistory idx turn hg

/-- The silence-detection configuration set in the `SpeechService`
constructor: `silenceThreshold` (normalized RMS floor) and
`silenceDuration` (ms of continuous silence before auto-stop). -/
structure VadConfig where
  silenceThreshold : ℚ
  silenceDuration : Nat
  deriving DecidableEq, Repr

/-- The constructor's values: `silenceThreshold = 0.01`,
`silenceDuration = 2000`. -/
def defaultVadConfig : VadConfig :=
  { silenceThreshold := 1 / 100, silenceDuration := 2000 }

/-- The detector's state: `isRecording`, the pending `silenceTimer`
(as the absolute deadline of the scheduled `setTimeout`, i.e. start time
plus `silenceDuration`), and how many times the recording has been
auto-stopped. -/
structure VadState where
  isRecording : Bool
  silenceTimer : Option Nat
  stopCount : Nat
  deriving DecidableEq, Repr

/-- `SpeechService.stopRecording`: `if (!this.isRecording) return;` then
clear the flag and the timer and stop the recorder (counted in
`stopCount`). -/
def VadState.stopRecording (s : VadState) : VadState :=
  if s.isRecording = false then s
  else { isRecording := false, silenceTimer := none, stopCount := s.stopCount + 1 }

/-- The event-loop delivery of the silence `setTimeout`: at time `t`, a
timer whose deadline has passed fires and calls `stopRecording`. -/
def VadState.fireDue (s : VadState) (t : Nat) : VadState :=
  match s.silenceTimer with
  | some d => if d ≤ t then s.stopRecording else s
  | none => s

/-- The squared RMS of one analyser frame of byte samples:
each byte `b` is normalized to `(b - 128) / 128` and the mean of the
squares is taken.  The source compares `Math.sqrt(meanSq) < threshold`;
for the nonnegative values involved this is equivalent to
`meanSq < threshold ^ 2`, which keeps the embedding inside ℚ.
(`fftSize` is 256, so real frames are never empty.) -/
def frameRmsSq (frame : List Nat) : ℚ :=
  ((frame.map (fun b => (((b : ℚ) - 128) / 128) ^ 2)).sum) / (frame.length : ℚ)

/-- One iteration of `checkVolume` inside `detectSilence`, observed at
time `t` with the current analyser frame: a timer whose deadline has
passed fires first (the event loop delivers the timeout before any later
frame callback); if the recording has stopped the callback returns; if the
frame is below the silence threshold a timer is started only when none is
running; otherwise any running timer is cancelled. -/
def VadState.checkVolume (cfg : VadConfig) (s : VadState) (t : Nat) (frame : List Nat) :
    VadState :=
  let s1 := s.fireDue t
  if s1.isRecording = false then s1
  else if frameRmsSq frame < cfg.silenceThreshold ^ 2 then
    match s1.silenceTimer with
    | none => { s1 with silenceTimer := some (t + cfg.silenceDuration) }
    | some _ => s1
  else { s1 with silenceTimer := none }

/-- A run of the detector over a sequence of (time, frame) callbacks. -/
def vadRun (cfg : VadConfig) (s : VadState) (frames : List (Nat × List Nat)) : VadState :=
  frames.foldl (fun st p => VadState.checkVolume cfg st p.1 p.2) s

/-- Helper: while a timer with deadline `d` is pending, below-threshold
frames arriving strictly before `d` change nothing (the timer is neither
restarted nor cancelled). -/
theorem vadRun_below_keeps (cfg : VadConfig) (d : Nat) (s : VadState)
    (hrec : s.isRecording = true) (htimer : s.silenceTimer = some d) :
    ∀ frames : List (Nat × List Nat),
      (∀ p ∈ frames, frameRmsSq p.2 < cfg.silenceThreshold ^ 2 ∧ p.1 < d) →
      vadRun cfg s frames = s := by
  intro frames
  induction frames with
  | nil => intro _; rfl
  | cons p ps ih =>
    intro hall
    have hp := hall p (List.mem_cons_self p ps)
    have hstep : VadState.checkVolume cfg s p.1 p.2 = s := by
      simp [VadState.checkVolume, VadState.fireDue, htimer, hrec, Nat.not_le.mpr hp.2, hp.1]
    calc vadRun cfg s (p :: ps) = vadRun cfg (VadState.checkVolume cfg s p.1 p.2) ps := rfl
      _ = vadRun cfg s ps := by rw [hstep]
      _ = s := ih (fun q hq => hall q (List.mem_cons_of_mem p hq))
  
/-- Helper: once the recording is stopped and no timer is pending, no
frame sequence changes the detector state — in particular no further
auto-stop happens. -/
theorem vadRun_stopped (cfg : VadConfig) (s : VadState)
    (hrec : s.isRecording = false) (htimer : s.silenceTimer = none) :
    ∀ frames : List (Nat × List Nat), vadRun cfg s frames = s := by
  intro frames
  induction frames with
  | nil => rfl
  | cons p ps ih =>
    have hstep : VadState.checkVolume cfg s p.1 p.2 = s := by
      simp [VadState.checkVolume, VadState.fireDue, htimer, hrec]
    calc vadRun cfg s (p :: ps) = vadRun cfg (VadState.checkVolume cfg s p.1 p.2) ps := rfl
      _ = vadRun cfg s ps := by rw [hstep]
      _ = s := ih

/-- C2: the silence detector.  With `fb` a below-threshold frame, `fa` an
at-or-above-threshold frame, and `rest` any below-threshold frames strictly
inside the silence window:
(1) a below-threshold run of exactly `silenceDuration` (timer started at
`t`, deadline `t + silenceDuration`) auto-stops the recording exactly once;
(2) a below-threshold frame starts the timer when none is running;
(3) a below-threshold frame leaves a running timer alone;
(4) an at-or-above frame cancels a running timer;
(5) an at-or-above frame with no timer running changes nothing;
(6) after the stop, no later frames ever stop again (the stop is unique);
(7) an above-threshold frame at `silenceDuration - 1` prevents the stop at
the deadline (the machine is still recording with no pending timer, so the
timer can only restart on a later below-threshold frame, as in (2));
(8) the constructor default for `silenceDuration` is 2000 ms. -/
theorem c2_silence_detector (cfg : VadConfig) (t d n : Nat) (fb fa : List Nat)
    (rest post : List (Nat × List Nat))
    (hb : frameRmsSq fb < cfg.silenceThreshold ^ 2)
    (ha : ¬ frameRmsSq fa < cfg.silenceThreshold ^ 2)
    (htd : t < d)
    (hrest : ∀ p ∈ rest, frameRmsSq p.2 < cfg.silenceThreshold ^ 2 ∧ p.1 < t + cfg.silenceDuration)
    (hD : 1 ≤ cfg.silenceDuration) :
    VadState.fireDue (vadRun cfg ⟨true, none, n⟩ ((t, fb) :: rest)) (t + cfg.silenceDuration) =
      ⟨false, none, n + 1⟩ ∧
    VadState.checkVolume cfg ⟨true, none, n⟩ t fb = ⟨true, some (t + cfg.silenceDuration), n⟩ ∧
    VadState.checkVolume cfg ⟨true, some d, n⟩ t fb = ⟨true, some d, n⟩ ∧
    VadState.checkVolume cfg ⟨true, some d, n⟩ t fa = ⟨true, none, n⟩ ∧
    VadState.checkVolume cfg ⟨true, none, n⟩ t fa = ⟨true, none, n⟩ ∧
    vadRun cfg ⟨false, none, n + 1⟩ post = ⟨false, none, n + 1⟩ ∧
    VadState.fireDue
        (vadRun cfg ⟨true, none, n⟩ [(t, fb), (t + cfg.silenceDuration - 1, fa)])
        (t + cfg.silenceDuration) = ⟨true, none, n⟩ ∧
    defaultVadConfig.silenceDuration = 2000 := by
  have hstep1 : VadState.checkVolume cfg ⟨true, none, n⟩ t fb =
      ⟨true, some (t + cfg.silenceDuration), n⟩ := by
    simp [VadState.checkVolume, VadState.fireDue, hb]
  have hrun : vadRun cfg ⟨true, none, n⟩ ((t, fb) :: rest) =
      ⟨true, some (t + cfg.silenceDuration), n⟩ := by
    calc vadRun cfg ⟨true, none, n⟩ ((t, fb) :: rest)
        = vadRun cfg (VadState.checkVolume cfg ⟨true, none, n⟩ t fb) rest := rfl
      _ = vadRun cfg ⟨true, some (t + cfg.silenceDuration), n⟩ rest := by rw [hstep1]
      _ = ⟨true, some (t + cfg.silenceDuration), n⟩ :=
          vadRun_below_keeps cfg (t + cfg.silenceDuration)
            ⟨true, some (t + cfg.silenceDuration), n⟩ rfl rfl rest hrest
  have hpos : 0 < t + cfg.silenceDuration :=
    Nat.lt_of_lt_of_le Nat.zero_lt_one (Nat.le_trans hD (Nat.le_add_left _ t))
  have hlt : t + cfg.silenceDuration - 1 < t + cfg.silenceDuration :=
    Nat.sub_lt hpos Nat.zero_lt_one
  have hcancel : vadRun cfg ⟨true, none, n⟩ [(t, fb), (t + cfg.silenceDuration - 1, fa)] =
      ⟨true, none, n⟩ := by
    have h2 : VadState.checkVolume cfg ⟨true, some (t + cfg.silenceDuration), n⟩
        (t + cfg.silenceDuration - 1) fa = ⟨true, none, n⟩ := by
      simp [VadState.checkVolume, VadState.fireDue, Nat.not_le.mpr hlt, ha]
    calc vadRun cfg ⟨true, none, n⟩ [(t, fb), (t + cfg.silenceDuration - 1, fa)]
        = VadState.checkVolume cfg (VadState.checkVolume cfg ⟨true, none, n⟩ t fb)
            (t + cfg.silenceDuration - 1) fa := rfl
      _ = ⟨true, none, n⟩ := by rw [hstep1, h2]
  refine ⟨?_, hstep1, ?_, ?_, ?_, ?_, ?_, rfl⟩
  · rw [hrun]
    simp [VadState.fireDue, VadState.stopRecording]
  · simp [VadState.checkVolume, VadState.fireDue, Nat.not_le.mpr htd, hb]
  · simp [VadState.checkVolume, VadState.fireDue, Nat.not_le.mpr htd, ha]
  · simp [VadState.checkVolume, VadState.fireDue, ha]
  · exact vadRun_stopped cfg ⟨false, none, n + 1⟩ rfl rfl post
  · rw [hcancel]
    simp [VadState.fireDue]

/-- C2 witness: the default configuration, a silent frame `[128]`
(normalized RMS 0), a loud frame `[255]` (normalized RMS about 0.99), one
extra silent frame inside the window, and frames after the stop. -/
theorem c2_silence_detector_witness :
    frameRmsSq [128] < defaultVadConfig.silenceThreshold ^ 2 ∧
    ¬ frameRmsSq [255] < defaultVadConfig.silenceThreshold ^ 2 ∧
    (0 : Nat) < 5 ∧
    (∀ p ∈ [((100 : Nat), [(128 : Nat)])],
      frameRmsSq p.2 < defaultVadConfig.silenceThreshold ^ 2 ∧
        p.1 < 0 + defaultVadConfig.silenceDuration) ∧
    1 ≤ defaultVadConfig.silenceDuration ∧
    VadState.fireDue (vadRun defaultVadConfig ⟨true, none, 0⟩ [(0, [128]), (100, [128])])
        (0 + defaultVadConfig.silenceDuration) = ⟨false, none, 1⟩ :=
  ⟨by norm_num [frameRmsSq, defaultVadConfig], by norm_num [frameRmsSq, defaultVadConfig],
    by decide, by norm_num [frameRmsSq, defaultVadConfig], by decide,
    (c2_silence_detector defaultVadConfig 0 5 0 [128] [255] [(100, [128])] [(9999, [255])]
      (by norm_num [frameRmsSq, defaultVadConfig]) (by norm_num [frameRmsSq, defaultVadConfig])
      (by decide) (by norm_num [frameRmsSq, defaultVadConfig]) (by decide)).1⟩
